import Mathlib

/-!
Verification of the tunedmode registration engine (tunedmode.py).

The engine tracks a set of registered game PIDs, arbitrates a single
global tuning profile through a profile client, and exposes
register/unregister/query operations guarded by policy hooks.  The
shallow embedding below translates the pure decision logic of the
Python source: psutil `Process` values are represented by their kernel
PID (a `Nat`; the source compares handles by PID), the TuneD service
is represented by its currently active profile plus an oracle giving
the outcome of each `switch_profile` D-Bus call, and Python exceptions
crossing the engine boundary are an `Except` error value.  Two ghost
histories instrument the state: `switch_log` records every profile
switch the engine issues (each call of `_switch_profile`), and
`tuned_calls` records every actual `switch_profile` call made to the
TuneD service (the short-circuited "already active" case issues none).
-/

set_option linter.unusedVariables false

deriving instance DecidableEq for Except

namespace Tunedmode

/-- Result codes RES_SUCCESS / RES_ERROR / RES_REJECTED of tunedmode.py. -/
def RES_SUCCESS : Int := 0

/-- Error result code. -/
def RES_ERROR : Int := -1

/-- Policy-rejection result code. -/
def RES_REJECTED : Int := -2

/-- Python exceptions that can cross the engine boundary: D-Bus transport
exceptions (`dbus.exceptions.DBusException`) and `ValueError`. -/
inductive PyErr where
  | dbusException (msg : String)
  | valueError (msg : String)
deriving DecidableEq

/-- Outcome of one `switch_profile` call on the TuneD D-Bus interface:
a normal reply `(True, msg)`, a normal reply `(False, msg)`, or a
transport-level `DBusException`. -/
inductive SwitchOutcome where
  | ok (msg : String)
  | failed (msg : String)
  | transportError (msg : String)
deriving DecidableEq

/-- State of the TunedMode engine together with the observable state of
the TuneD service (`active_profile`) and the two ghost histories
(most recent event first). -/
structure EngineState where
  registred_games : Finset Nat
  active_profile : String
  initial_profile : String
  gaming_profile : String
  switch_log : List String
  tuned_calls : List String
deriving DecidableEq

/-- Embedding of `TunedMode._switch_profile`.  If the requested profile
is already active the call short-circuits with `(True, "Requested
profile is already active")` and no TuneD call is made; otherwise the
TuneD `switch_profile` method is invoked (recorded in `tuned_calls`,
outcome given by `oracle`).  A transport error is an uncaught
`DBusException`.  Every invocation is recorded in `switch_log`. -/
def switch_profile (st : EngineState) (oracle : String → SwitchOutcome) (profile : String) :
    Except PyErr (Bool × String) × EngineState :=
  if profile = st.active_profile then
    (Except.ok (true, "Requested profile is already active"),
     { st with switch_log := profile :: st.switch_log })
  else
    match oracle profile with
    | SwitchOutcome.ok msg =>
        (Except.ok (true, msg),
         { st with active_profile := profile,
                   switch_log := profile :: st.switch_log,
                   tuned_calls := profile :: st.tuned_calls })
    | SwitchOutcome.failed msg =>
        (Except.ok (false, msg),
         { st with switch_log := profile :: st.switch_log,
                   tuned_calls := profile :: st.tuned_calls })
    | SwitchOutcome.transportError msg =>
        (Except.error (PyErr.dbusException msg),
         { st with switch_log := profile :: st.switch_log,
                   tuned_calls := profile :: st.tuned_calls })

/-- Embedding of `TunedMode._register_allowed` (default hook, always true). -/
def register_allowed (caller game : Nat) : Bool := true

/-- Embedding of `TunedMode._unregister_allowed` (default hook, always true). -/
def unregister_allowed (caller game : Nat) : Bool := true

/-- Embedding of `TunedMode._query_allowed` (default hook, always true). -/
def query_allowed (caller game : Nat) : Bool := true

/-- Embedding of `TunedMode._register_game`. -/
def register_game (st : EngineState) (oracle : String → SwitchOutcome) (caller game : Nat) :
    Except PyErr Int × EngineState :=
  if !(register_allowed caller game) then (Except.ok RES_REJECTED, st)
  else if game ∈ st.registred_games then (Except.ok RES_ERROR, st)
  else
    match (switch_profile st oracle st.gaming_profile).1 with
    | Except.error e => (Except.error e, (switch_profile st oracle st.gaming_profile).2)
    | Except.ok (success, _) =>
      if success then
        (Except.ok RES_SUCCESS,
         { (switch_profile st oracle st.gaming_profile).2 with
           registred_games :=
             insert game (switch_profile st oracle st.gaming_profile).2.registred_games })
      else (Except.ok RES_ERROR, (switch_profile st oracle st.gaming_profile).2)

/-- Embedding of `TunedMode._unregister_game`. -/
def unregister_game (st : EngineState) (oracle : String → SwitchOutcome) (caller game : Nat) :
    Except PyErr Int × EngineState :=
  if !(unregister_allowed caller game) then (Except.ok RES_REJECTED, st)
  else if game ∉ st.registred_games then (Except.ok RES_ERROR, st)
  else if st.registred_games \ {game} = ∅ then
    match (switch_profile st oracle st.initial_profile).1 with
    | Except.error e => (Except.error e, (switch_profile st oracle st.initial_profile).2)
    | Except.ok (success, _) =>
      if success then
        (Except.ok RES_SUCCESS,
         { (switch_profile st oracle st.initial_profile).2 with
           registred_games :=
             (switch_profile st oracle st.initial_profile).2.registred_games.erase game })
      else (Except.ok RES_ERROR, (switch_profile st oracle st.initial_profile).2)
  else (Except.ok RES_SUCCESS, { st with registred_games := st.registred_games.erase game })

/-- Embedding of `TunedMode._query_status`. -/
def query_status (st : EngineState) (caller game : Nat) : Int :=
  if !(query_allowed caller game) then RES_REJECTED
  else if st.registred_games.Nonempty then
    1 + (if game ∈ st.registred_games then 1 else 0)
  else 0

/-- Embedding of the tail of `TunedMode.__watch_process_worker`, after the
watched process has exited: the unregister path is invoked only when the
process is still in the registration set.  The first component records
whether (and with which result) `_unregister_game` was invoked. -/
def watch_process_worker (st : EngineState) (oracle : String → SwitchOutcome)
    (self_pid proc : Nat) : Option (Except PyErr Int) × EngineState :=
  if proc ∈ st.registred_games then
    (some (unregister_game st oracle self_pid proc).1,
     (unregister_game st oracle self_pid proc).2)
  else (none, st)

/-- Embedding of `TunedMode._get_processes`: PIDs pass through unchanged
(the source's two branches only decide object sharing of equal handles). -/
def get_processes (caller_pid game_pid : Nat) : Nat × Nat := (caller_pid, game_pid)

/-- Embedding of the `dbus_handle_exceptions` decorator: a
`DBusException` is re-raised without extra logging, any other exception
is logged with a traceback and re-raised; a normal result passes
through.  In both exception branches the exception itself reaches the
bus unchanged. -/
def dbus_handle_exceptions : Except PyErr Int → Except PyErr Int
  | Except.error (PyErr.dbusException m) => Except.error (PyErr.dbusException m)
  | Except.error (PyErr.valueError m) => Except.error (PyErr.valueError m)
  | Except.ok v => Except.ok v

/-- Embedding of the D-Bus method `TunedMode.RegisterGame` (single-PID
variant, caller = game), including its exception-handling wrapper. -/
def RegisterGame (st : EngineState) (oracle : String → SwitchOutcome) (i : Nat) :
    Except PyErr Int × EngineState :=
  let p := get_processes i i
  ((dbus_handle_exceptions (register_game st oracle p.1 p.2).1),
   (register_game st oracle p.1 p.2).2)

/-- Embedding of the D-Bus method `TunedMode.UnregisterGame` (single-PID
variant, caller = game), including its exception-handling wrapper. -/
def UnregisterGame (st : EngineState) (oracle : String → SwitchOutcome) (i : Nat) :
    Except PyErr Int × EngineState :=
  let p := get_processes i i
  ((dbus_handle_exceptions (unregister_game st oracle p.1 p.2).1),
   (unregister_game st oracle p.1 p.2).2)

/-- One engine operation of a run: a register or an unregister request,
carrying the TuneD outcome oracle in effect while it executes. -/
inductive EngineOp where
  | reg (caller game : Nat) (oracle : String → SwitchOutcome)
  | unreg (caller game : Nat) (oracle : String → SwitchOutcome)

/-- Oracle in effect during an operation. -/
def EngineOp.oracle : EngineOp → (String → SwitchOutcome)
  | EngineOp.reg _ _ o => o
  | EngineOp.unreg _ _ o => o

/-- Execute one engine operation. -/
def step_op (st : EngineState) : EngineOp → Except PyErr Int × EngineState
  | EngineOp.reg c g o => register_game st o c g
  | EngineOp.unreg c g o => unregister_game st o c g

/-- Execute a finite sequence of engine operations, keeping the final state. -/
def run_ops (st : EngineState) : List EngineOp → EngineState
  | [] => st
  | op :: ops => run_ops (step_op st op).2 ops

/-- The TuneD service accepts every switch request under this oracle. -/
def OracleSucceeds (o : String → SwitchOutcome) : Prop :=
  ∀ p, ∃ m, o p = SwitchOutcome.ok m

/-- A register immediately followed by an unregister of the same PID:
both results, and the final state. -/
def round_trip (st : EngineState) (o1 o2 : String → SwitchOutcome) (p : Nat) :
    (Except PyErr Int × Except PyErr Int) × EngineState :=
  (((register_game st o1 p p).1,
    (unregister_game (register_game st o1 p p).2 o2 p p).1),
   (unregister_game (register_game st o1 p p).2 o2 p p).2)

/-- Characters Python `str.split()` treats as whitespace (ASCII part). -/
def isPySpace (c : Char) : Bool :=
  c = ' ' || c = '\t' || c = '\n' || c = '\r' || c = '\x0b' || c = '\x0c'

/-- Embedding of Python `line.split(maxsplit=1)`: leading whitespace is
skipped; if nothing remains the result is empty; otherwise the first
whitespace-delimited token is taken and, after skipping the separating
whitespace run, any nonempty remainder (trailing whitespace kept) is
the second element. -/
def pySplitMax1 (s : List Char) : List (List Char) :=
  let s1 := s.dropWhile isPySpace
  if s1.isEmpty then []
  else
    let tok := s1.takeWhile (fun c => !(isPySpace c))
    let rest := (s1.dropWhile (fun c => !(isPySpace c))).dropWhile isPySpace
    if rest.isEmpty then [tok] else [tok, rest]

/-- Value of a Python decimal integer literal body: digits with single
underscores allowed between digits (none returned on any other shape).
The first character is assumed checked to be a digit by the caller. -/
def pyDigitsVal (acc : Nat) : List Char → Option Nat
  | [] => some acc
  | c :: cs =>
    if c.isDigit then pyDigitsVal (10 * acc + (c.toNat - 48)) cs
    else if c = '_' then
      match cs with
      | c2 :: cs2 =>
        if c2.isDigit then pyDigitsVal (10 * acc + (c2.toNat - 48)) cs2 else none
      | [] => none
    else none

/-- Embedding of Python `int(value)` on a string: whitespace is stripped,
an optional sign is accepted, and the remainder must be a nonempty
digit sequence (single underscores allowed between digits). -/
def pyInt (s : List Char) : Option Int :=
  let t := ((s.dropWhile isPySpace).reverse.dropWhile isPySpace).reverse
  match t with
  | [] => none
  | '+' :: rest =>
    match rest with
    | c :: _ => if c.isDigit then (pyDigitsVal 0 rest).map (fun n => (n : Int)) else none
    | [] => none
  | '-' :: rest =>
    match rest with
    | c :: _ => if c.isDigit then (pyDigitsVal 0 rest).map (fun n => -(n : Int)) else none
    | [] => none
  | c :: _ => if c.isDigit then (pyDigitsVal 0 t).map (fun n => (n : Int)) else none

/-- The three `ValueError` shapes `pidfd_to_pid` can raise: a line that
does not unpack into exactly a field and a value, an `int()` conversion
failure, and the function's own `raise ValueError(fdinfo_text)` when no
`Pid:` field is found. -/
inductive DecodeErr where
  | unpackError
  | intError (s : String)
  | noPidField
deriving DecidableEq

/-- Embedding of `pidfd_to_pid`, with the fdinfo text represented by its
list of lines (the result of `fdinfo_text.splitlines()`).  Each line is
unpacked as `field, value = line.split(maxsplit=1)` — raising a
ValueError if the split does not give exactly two parts — and the first
line whose field is exactly `Pid:` has its value converted by `int`. -/
def pidfd_to_pid : List String → Except DecodeErr Int
  | [] => Except.error DecodeErr.noPidField
  | line :: rest =>
    match pySplitMax1 line.data with
    | [f, v] =>
      if f = "Pid:".data then
        match pyInt v with
        | some n => Except.ok n
        | none => Except.error (DecodeErr.intError (String.mk v))
      else pidfd_to_pid rest
    | _ => Except.error DecodeErr.unpackError

/-- A line whose field tag (first whitespace-delimited token, provided
the line unpacks into two parts) is exactly `Pid:`. -/
def hasPidTag (l : String) : Bool :=
  match pySplitMax1 l.data with
  | [f, _] => decide (f = "Pid:".data)
  | _ => false

/-- Oracle under which every TuneD switch request succeeds. -/
def okOracle : String → SwitchOutcome := fun _ => SwitchOutcome.ok "OK"

/-- Oracle under which every TuneD switch request is refused. -/
def failOracle : String → SwitchOutcome := fun _ => SwitchOutcome.failed "boom"

/-- Oracle under which every TuneD switch request raises a transport error. -/
def errOracle : String → SwitchOutcome := fun _ => SwitchOutcome.transportError "disconnected"

/-- A concrete engine state with no registered games. -/
def emptySt : EngineState :=
  { registred_games := ∅
    active_profile := "balanced"
    initial_profile := "balanced"
    gaming_profile := "latency-performance"
    switch_log := []
    tuned_calls := [] }

/-- A concrete engine state with the single game 7 registered. -/
def oneSt : EngineState :=
  { registred_games := {7}
    active_profile := "latency-performance"
    initial_profile := "balanced"
    gaming_profile := "latency-performance"
    switch_log := ["latency-performance"]
    tuned_calls := ["latency-performance"] }

/-! Helper lemmas about `switch_profile`. -/

/-- A profile switch never touches the registration set. -/
theorem switch_profile_registred_games (st : EngineState) (o : String → SwitchOutcome)
    (p : String) : (switch_profile st o p).2.registred_games = st.registred_games := by
  unfold switch_profile
  by_cases h : p = st.active_profile
  · simp [h]
  · cases ho : o p <;> simp [h, ho]

/-- A profile switch never changes the recorded initial profile. -/
theorem switch_profile_initial_profile (st : EngineState) (o : String → SwitchOutcome)
    (p : String) : (switch_profile st o p).2.initial_profile = st.initial_profile := by
  unfold switch_profile
  by_cases h : p = st.active_profile
  · simp [h]
  · cases ho : o p <;> simp [h, ho]

/-- A profile switch never changes the configured gaming profile. -/
theorem switch_profile_gaming_profile (st : EngineState) (o : String → SwitchOutcome)
    (p : String) : (switch_profile st o p).2.gaming_profile = st.gaming_profile := by
  unfold switch_profile
  by_cases h : p = st.active_profile
  · simp [h]
  · cases ho : o p <;> simp [h, ho]

/-- Every invocation of `switch_profile` records its target. -/
theorem switch_profile_switch_log (st : EngineState) (o : String → SwitchOutcome)
    (p : String) : (switch_profile st o p).2.switch_log = p :: st.switch_log := by
  unfold switch_profile
  by_cases h : p = st.active_profile
  · simp [h]
  · cases ho : o p <;> simp [h, ho]

/-- Under an all-accepting oracle a profile switch reports success and
leaves the requested profile active. -/
theorem switch_profile_of_succeeds (st : EngineState) (o : String → SwitchOutcome)
    (p : String) (h : OracleSucceeds o) :
    ∃ m, (switch_profile st o p).1 = Except.ok (true, m) ∧
      (switch_profile st o p).2.active_profile = p := by
  unfold switch_profile
  by_cases hp : p = st.active_profile
  · exact ⟨"Requested profile is already active", by simp [hp], by simp [hp]⟩
  · obtain ⟨m, hm⟩ := h p
    exact ⟨m, by simp [hp, hm], by simp [hp, hm]⟩

/-- The oracle accepting every request does accept every request. -/
theorem okOracle_succeeds : OracleSucceeds okOracle := fun _ => ⟨"OK", rfl⟩

/-- C4: with the default (always-true) query hook, `query_status` returns
2 iff the queried game is registered, 1 iff some game is registered but
not the queried one, and 0 iff no game is registered. -/
theorem query_status_encoding (st : EngineState) (caller game : Nat) :
    (query_status st caller game = 2 ↔ game ∈ st.registred_games) ∧
    (query_status st caller game = 1 ↔
      (st.registred_games.Nonempty ∧ game ∉ st.registred_games)) ∧
    (query_status st caller game = 0 ↔ st.registred_games = ∅) := by
  unfold query_status query_allowed
  by_cases hne : st.registred_games.Nonempty
  · by_cases hmem : game ∈ st.registred_games
    · simp [hne, hmem, Finset.nonempty_iff_ne_empty.mp hne]
    · simp [hne, hmem, Finset.nonempty_iff_ne_empty.mp hne]
  · have he : st.registred_games = ∅ := Finset.not_nonempty_iff_eq_empty.mp hne
    simp [hne, he]

/-- C5: registering an already-registered game, or unregistering an
unknown game, returns RES_ERROR and leaves the engine state — set,
active profile and both histories — completely unchanged, so in
particular no profile switch is attempted. -/
theorem duplicate_register_unknown_unregister_error
    (st1 st2 : EngineState) (o1 o2 : String → SwitchOutcome) (c1 g1 c2 g2 : Nat)
    (hmem : g1 ∈ st1.registred_games) (hnmem : g2 ∉ st2.registred_games) :
    register_game st1 o1 c1 g1 = (Except.ok RES_ERROR, st1) ∧
    unregister_game st2 o2 c2 g2 = (Except.ok RES_ERROR, st2) := by
  constructor
  · simp [register_game, register_allowed, hmem]
  · simp [unregister_game, unregister_allowed, hnmem]

/-- Witness for C5 at concrete states. -/
theorem duplicate_register_unknown_unregister_error_witness :
    register_game oneSt okOracle 7 7 = (Except.ok RES_ERROR, oneSt) ∧
    unregister_game emptySt okOracle 42 42 = (Except.ok RES_ERROR, emptySt) :=
  duplicate_register_unknown_unregister_error oneSt emptySt okOracle okOracle 7 7 42 42
    (by decide) (by decide)

/-- C6: when the requested profile is already the TuneD service's active
profile, `switch_profile` short-circuits with ok=true and the
already-active message, makes no call to the TuneD switch operation,
and changes nothing but its issue log. -/
theorem switch_profile_already_active (st : EngineState) (o : String → SwitchOutcome)
    (p : String) (h : p = st.active_profile) :
    (switch_profile st o p).1 =
        Except.ok (true, "Requested profile is already active") ∧
    (switch_profile st o p).2.tuned_calls = st.tuned_calls ∧
    (switch_profile st o p).2 = { st with switch_log := p :: st.switch_log } := by
  simp [switch_profile, h]

/-- Witness for C6: even with a transport-failing oracle the
short-circuit returns success and calls nothing. -/
theorem switch_profile_already_active_witness :
    (switch_profile emptySt errOracle "balanced").1 =
        Except.ok (true, "Requested profile is already active") ∧
    (switch_profile emptySt errOracle "balanced").2.tuned_calls = emptySt.tuned_calls ∧
    (switch_profile emptySt errOracle "balanced").2 =
        { emptySt with switch_log := "balanced" :: emptySt.switch_log } :=
  switch_profile_already_active emptySt errOracle "balanced" rfl

/-- C9: the exit-watcher worker for a process that is no longer in the
registration set does not invoke the unregister path: the state — set,
active profile, histories — is returned untouched and no call is made. -/
theorem watcher_skips_unregistered (st : EngineState) (o : String → SwitchOutcome)
    (self_pid proc : Nat) (h : proc ∉ st.registred_games) :
    watch_process_worker st o self_pid proc = (none, st) := by
  simp [watch_process_worker, h]

/-- Witness for C9 at a concrete state. -/
theorem watcher_skips_unregistered_witness :
    watch_process_worker emptySt okOracle 1 5 = (none, emptySt) :=
  watcher_skips_unregistered emptySt okOracle 1 5 (by decide)

/-- C1: when the switch to the gaming profile issued inside register
reports failure the game is not added and RES_ERROR is returned, and
when the switch back to the initial profile issued while unregistering
the last registered game reports failure the game is not removed and
RES_ERROR is returned. -/
theorem register_unregister_switch_failure_keeps_set
    (st1 st2 : EngineState) (o1 o2 : String → SwitchOutcome)
    (c1 g1 c2 g2 : Nat) (m1 m2 : String)
    (hmem : g1 ∉ st1.registred_games)
    (hfail1 : (switch_profile st1 o1 st1.gaming_profile).1 = Except.ok (false, m1))
    (hlast : st2.registred_games = {g2})
    (hfail2 : (switch_profile st2 o2 st2.initial_profile).1 = Except.ok (false, m2)) :
    ((register_game st1 o1 c1 g1).1 = Except.ok RES_ERROR ∧
     (register_game st1 o1 c1 g1).2.registred_games = st1.registred_games) ∧
    ((unregister_game st2 o2 c2 g2).1 = Except.ok RES_ERROR ∧
     (unregister_game st2 o2 c2 g2).2.registred_games = st2.registred_games) := by
  have hm2 : g2 ∈ st2.registred_games := by
    rw [hlast]; exact Finset.mem_singleton_self g2
  have hd : st2.registred_games \ {g2} = ∅ := by rw [hlast]; simp
  refine ⟨⟨?_, ?_⟩, ?_, ?_⟩
  · simp [register_game, register_allowed, hmem, hfail1]
  · simp [register_game, register_allowed, hmem, hfail1, switch_profile_registred_games]
  · simp [unregister_game, unregister_allowed, hm2, hd, hfail2]
  · simp [unregister_game, unregister_allowed, hm2, hd, hfail2,
      switch_profile_registred_games]

/-- Witness for C1 at concrete states with a refusing TuneD service. -/
theorem register_unregister_switch_failure_keeps_set_witness :
    ((register_game emptySt failOracle 1 1).1 = Except.ok RES_ERROR ∧
     (register_game emptySt failOracle 1 1).2.registred_games = emptySt.registred_games) ∧
    ((unregister_game oneSt failOracle 7 7).1 = Except.ok RES_ERROR ∧
     (unregister_game oneSt failOracle 7 7).2.registred_games = oneSt.registred_games) :=
  register_unregister_switch_failure_keeps_set emptySt oneSt failOracle failOracle
    1 1 7 7 "boom" "boom" (by decide) (by decide) (by decide) (by decide)

/-- The exception wrapper re-raises every exception and passes normal
results through unchanged. -/
theorem dbus_handle_exceptions_id (r : Except PyErr Int) : dbus_handle_exceptions r = r := by
  cases r with
  | error e => cases e <;> rfl
  | ok v => rfl

/-- C2 counterexample: with the TuneD service raising a transport error
on every switch, the failure does not surface as an ok=false reply —
the switch raises — and RegisterGame produces the re-raised exception,
not the integer RES_ERROR. -/
theorem transport_error_not_integer_result_cex :
    (switch_profile emptySt errOracle emptySt.gaming_profile).1 =
        Except.error (PyErr.dbusException "disconnected") ∧
    (∀ m : String, (switch_profile emptySt errOracle emptySt.gaming_profile).1 ≠
        Except.ok (false, m)) ∧
    (RegisterGame emptySt errOracle 7).1 =
        Except.error (PyErr.dbusException "disconnected") ∧
    (RegisterGame emptySt errOracle 7).1 ≠ Except.ok RES_ERROR := by
  refine ⟨by decide, fun m => by simp [switch_profile, errOracle, emptySt], by decide, by decide⟩

/-- C2 amended: a transport-level error raised by the TuneD service
during the profile switch issued by register (game not yet known) or by
unregister of the last game propagates as that same DBusException
through the engine and through the dbus_handle_exceptions wrapper — the
bus client receives the exception in place of an integer result — while
the registration set is unchanged. -/
theorem transport_error_propagates
    (st1 st2 : EngineState) (o1 o2 : String → SwitchOutcome) (g1 g2 : Nat) (e1 e2 : PyErr)
    (hmem : g1 ∉ st1.registred_games)
    (herr1 : (switch_profile st1 o1 st1.gaming_profile).1 = Except.error e1)
    (hlast : st2.registred_games = {g2})
    (herr2 : (switch_profile st2 o2 st2.initial_profile).1 = Except.error e2) :
    ((RegisterGame st1 o1 g1).1 = Except.error e1 ∧
     (∀ n : Int, (RegisterGame st1 o1 g1).1 ≠ Except.ok n) ∧
     (RegisterGame st1 o1 g1).2.registred_games = st1.registred_games) ∧
    ((UnregisterGame st2 o2 g2).1 = Except.error e2 ∧
     (∀ n : Int, (UnregisterGame st2 o2 g2).1 ≠ Except.ok n) ∧
     (UnregisterGame st2 o2 g2).2.registred_games = st2.registred_games) := by
  have hm2 : g2 ∈ st2.registred_games := by
    rw [hlast]; exact Finset.mem_singleton_self g2
  have hd : st2.registred_games \ {g2} = ∅ := by rw [hlast]; simp
  have hr : (RegisterGame st1 o1 g1).1 = Except.error e1 := by
    simp [RegisterGame, get_processes, dbus_handle_exceptions_id, register_game,
      register_allowed, hmem, herr1]
  have hu : (UnregisterGame st2 o2 g2).1 = Except.error e2 := by
    simp [UnregisterGame, get_processes, dbus_handle_exceptions_id, unregister_game,
      unregister_allowed, hm2, hd, herr2]
  refine ⟨⟨hr, fun n => by simp [hr], ?_⟩, hu, fun n => by simp [hu], ?_⟩
  · simp [RegisterGame, get_processes, register_game, register_allowed, hmem, herr1,
      switch_profile_registred_games]
  · simp [UnregisterGame, get_processes, unregister_game, unregister_allowed, hm2, hd,
      herr2, switch_profile_registred_games]

/-- Witness for the amended C2 at concrete states. -/
theorem transport_error_propagates_witness :
    ((RegisterGame emptySt errOracle 1).1 =
        Except.error (PyErr.dbusException "disconnected") ∧
     (∀ n : Int, (RegisterGame emptySt errOracle 1).1 ≠ Except.ok n) ∧
     (RegisterGame emptySt errOracle 1).2.registred_games = emptySt.registred_games) ∧
    ((UnregisterGame oneSt errOracle 7).1 =
        Except.error (PyErr.dbusException "disconnected") ∧
     (∀ n : Int, (UnregisterGame oneSt errOracle 7).1 ≠ Except.ok n) ∧
     (UnregisterGame oneSt errOracle 7).2.registred_games = oneSt.registred_games) :=
  transport_error_propagates emptySt oneSt errOracle errOracle 1 7
    (PyErr.dbusException "disconnected") (PyErr.dbusException "disconnected")
    (by decide) (by decide) (by decide) (by decide)

/-- Every register result is success, error, or a propagated exception. -/
theorem register_game_result (st : EngineState) (o : String → SwitchOutcome)
    (caller game : Nat) :
    (register_game st o caller game).1 = Except.ok RES_SUCCESS ∨
    (register_game st o caller game).1 = Except.ok RES_ERROR ∨
    (∃ e, (register_game st o caller game).1 = Except.error e) := by
  by_cases hmem : game ∈ st.registred_games
  · simp [register_game, register_allowed, hmem]
  · rcases hsp : (switch_profile st o st.gaming_profile).1 with e | ⟨s, m⟩
    · simp [register_game, register_allowed, hmem, hsp]
    · cases s <;> simp [register_game, register_allowed, hmem, hsp]

/-- Every unregister result is success, error, or a propagated exception. -/
theorem unregister_game_result (st : EngineState) (o : String → SwitchOutcome)
    (caller game : Nat) :
    (unregister_game st o caller game).1 = Except.ok RES_SUCCESS ∨
    (unregister_game st o caller game).1 = Except.ok RES_ERROR ∨
    (∃ e, (unregister_game st o caller game).1 = Except.error e) := by
  by_cases hmem : game ∈ st.registred_games
  · by_cases hd : st.registred_games \ {game} = ∅
    · rcases hsp : (switch_profile st o st.initial_profile).1 with e | ⟨s, m⟩
      · simp [unregister_game, unregister_allowed, hmem, hd, hsp]
      · cases s <;> simp [unregister_game, unregister_allowed, hmem, hd, hsp]
    · simp [unregister_game, unregister_allowed, hmem, hd]
  · simp [unregister_game, unregister_allowed, hmem]

/-- C10: with the default always-true policy hooks, the REJECTED code is
unreachable — every integer returned by register or unregister is
RES_SUCCESS or RES_ERROR, and query returns only 0, 1 or 2. -/
theorem rejected_unreachable_default_hooks (st : EngineState)
    (o : String → SwitchOutcome) (caller game : Nat) :
    (∀ n, (register_game st o caller game).1 = Except.ok n →
        n = RES_SUCCESS ∨ n = RES_ERROR) ∧
    (∀ n, (unregister_game st o caller game).1 = Except.ok n →
        n = RES_SUCCESS ∨ n = RES_ERROR) ∧
    (query_status st caller game = 0 ∨ query_status st caller game = 1 ∨
        query_status st caller game = 2) := by
  refine ⟨?_, ?_, ?_⟩
  · intro n hn
    rcases register_game_result st o caller game with h | h | ⟨e, h⟩ <;> rw [h] at hn
    · exact Or.inl (Except.ok.inj hn).symm
    · exact Or.inr (Except.ok.inj hn).symm
    · exact absurd hn (by simp)
  · intro n hn
    rcases unregister_game_result st o caller game with h | h | ⟨e, h⟩ <;> rw [h] at hn
    · exact Or.inl (Except.ok.inj hn).symm
    · exact Or.inr (Except.ok.inj hn).symm
    · exact absurd hn (by simp)
  · unfold query_status query_allowed
    by_cases hne : st.registred_games.Nonempty
    · by_cases hmem : game ∈ st.registred_games <;> simp [hne, hmem]
    · simp [hne]

/-- Witness for C10: at concrete inputs the implications fire on the
observed RES_SUCCESS results and the query value is in range. -/
theorem rejected_unreachable_default_hooks_witness :
    (RES_SUCCESS = RES_SUCCESS ∨ RES_SUCCESS = RES_ERROR) ∧
    (query_status emptySt 1 2 = 0 ∨ query_status emptySt 1 2 = 1 ∨
        query_status emptySt 1 2 = 2) :=
  ⟨(rejected_unreachable_default_hooks emptySt okOracle 1 2).1 RES_SUCCESS (by decide),
   (rejected_unreachable_default_hooks emptySt okOracle 1 2).2.2⟩

/-- Specification of one successful round trip from an empty set. -/
theorem round_trip_spec (st : EngineState) (o1 o2 : String → SwitchOutcome) (p : Nat)
    (h0 : st.registred_games = ∅) (h1 : OracleSucceeds o1) (h2 : OracleSucceeds o2) :
    (round_trip st o1 o2 p).1.1 = Except.ok RES_SUCCESS ∧
    (round_trip st o1 o2 p).1.2 = Except.ok RES_SUCCESS ∧
    (round_trip st o1 o2 p).2.registred_games = ∅ := by
  have hmem : p ∉ st.registred_games := by rw [h0]; simp
  obtain ⟨m1, hm1, _⟩ := switch_profile_of_succeeds st o1 st.gaming_profile h1
  have hreg1 : (register_game st o1 p p).1 = Except.ok RES_SUCCESS := by
    simp [register_game, register_allowed, hmem, hm1]
  have hregset : (register_game st o1 p p).2.registred_games = {p} := by
    simp [register_game, register_allowed, hmem, hm1, switch_profile_registred_games, h0]
  obtain ⟨m2, hm2, _⟩ :=
    switch_profile_of_succeeds (register_game st o1 p p).2 o2
      (register_game st o1 p p).2.initial_profile h2
  have hm : p ∈ (register_game st o1 p p).2.registred_games := by
    rw [hregset]; exact Finset.mem_singleton_self p
  have hd : (register_game st o1 p p).2.registred_games \ {p} = ∅ := by
    rw [hregset]; simp
  have hunreg : (unregister_game (register_game st o1 p p).2 o2 p p).1 =
      Except.ok RES_SUCCESS := by
    simp [unregister_game, unregister_allowed, hm, hd, hm2]
  have hunset : (unregister_game (register_game st o1 p p).2 o2 p p).2.registred_games =
      ∅ := by
    simp [unregister_game, unregister_allowed, hm, hd, hm2,
      switch_profile_registred_games, hregset]
  exact ⟨hreg1, hunreg, hunset⟩

/-- C8: from an empty registration set, with the default hooks and every
switch succeeding, register(p,p) then unregister(p,p) both return
RES_SUCCESS and restore the empty set; composing the pair with itself
again yields RES_SUCCESS twice and the empty set. -/
theorem round_trip_idempotent (st : EngineState)
    (o1 o2 o3 o4 : String → SwitchOutcome) (p : Nat)
    (h0 : st.registred_games = ∅)
    (h1 : OracleSucceeds o1) (h2 : OracleSucceeds o2)
    (h3 : OracleSucceeds o3) (h4 : OracleSucceeds o4) :
    (round_trip st o1 o2 p).1.1 = Except.ok RES_SUCCESS ∧
    (round_trip st o1 o2 p).1.2 = Except.ok RES_SUCCESS ∧
    (round_trip st o1 o2 p).2.registred_games = ∅ ∧
    (round_trip (round_trip st o1 o2 p).2 o3 o4 p).1.1 = Except.ok RES_SUCCESS ∧
    (round_trip (round_trip st o1 o2 p).2 o3 o4 p).1.2 = Except.ok RES_SUCCESS ∧
    (round_trip (round_trip st o1 o2 p).2 o3 o4 p).2.registred_games = ∅ := by
  obtain ⟨a, b, c⟩ := round_trip_spec st o1 o2 p h0 h1 h2
  obtain ⟨d, e, f⟩ := round_trip_spec (round_trip st o1 o2 p).2 o3 o4 p c h3 h4
  exact ⟨a, b, c, d, e, f⟩

/-- Witness for C8 at a concrete empty state. -/
theorem round_trip_idempotent_witness :
    (round_trip emptySt okOracle okOracle 3).1.1 = Except.ok RES_SUCCESS ∧
    (round_trip emptySt okOracle okOracle 3).1.2 = Except.ok RES_SUCCESS ∧
    (round_trip emptySt okOracle okOracle 3).2.registred_games = ∅ ∧
    (round_trip (round_trip emptySt okOracle okOracle 3).2 okOracle okOracle 3).1.1 =
        Except.ok RES_SUCCESS ∧
    (round_trip (round_trip emptySt okOracle okOracle 3).2 okOracle okOracle 3).1.2 =
        Except.ok RES_SUCCESS ∧
    (round_trip (round_trip emptySt okOracle okOracle 3).2 okOracle okOracle
        3).2.registred_games = ∅ :=
  round_trip_idempotent emptySt okOracle okOracle okOracle okOracle 3 (by decide)
    okOracle_succeeds okOracle_succeeds okOracle_succeeds okOracle_succeeds

/-! Lemmas for runs of engine operations. -/

/-- Register never changes the recorded initial profile. -/
theorem register_game_initial_profile (st : EngineState) (o : String → SwitchOutcome)
    (c g : Nat) : (register_game st o c g).2.initial_profile = st.initial_profile := by
  by_cases hmem : g ∈ st.registred_games
  · simp [register_game, register_allowed, hmem]
  · rcases hsp : (switch_profile st o st.gaming_profile).1 with e | ⟨s, m⟩
    · simp [register_game, register_allowed, hmem, hsp, switch_profile_initial_profile]
    · cases s <;>
        simp [register_game, register_allowed, hmem, hsp, switch_profile_initial_profile]

/-- Unregister never changes the recorded initial profile. -/
theorem unregister_game_initial_profile (st : EngineState) (o : String → SwitchOutcome)
    (c g : Nat) : (unregister_game st o c g).2.initial_profile = st.initial_profile := by
  by_cases hmem : g ∈ st.registred_games
  · by_cases hd : st.registred_games \ {g} = ∅
    · rcases hsp : (switch_profile st o st.initial_profile).1 with e | ⟨s, m⟩
      · simp [unregister_game, unregister_allowed, hmem, hd, hsp,
          switch_profile_initial_profile]
      · cases s <;>
          simp [unregister_game, unregister_allowed, hmem, hd, hsp,
            switch_profile_initial_profile]
    · simp [unregister_game, unregister_allowed, hmem, hd]
  · simp [unregister_game, unregister_allowed, hmem]

/-- One operation never changes the recorded initial profile. -/
theorem step_op_initial_profile (st : EngineState) (op : EngineOp) :
    (step_op st op).2.initial_profile = st.initial_profile := by
  cases op with
  | reg c g o => exact register_game_initial_profile st o c g
  | unreg c g o => exact unregister_game_initial_profile st o c g

/-- A run never changes the recorded initial profile. -/
theorem run_ops_initial_profile (ops : List EngineOp) (st : EngineState) :
    (run_ops st ops).initial_profile = st.initial_profile := by
  induction ops generalizing st with
  | nil => rfl
  | cons a t ih => rw [run_ops, ih, step_op_initial_profile]

/-- Register leaves the set unchanged or inserts the game. -/
theorem register_game_set_shape (st : EngineState) (o : String → SwitchOutcome)
    (c g : Nat) :
    (register_game st o c g).2.registred_games = st.registred_games ∨
    (register_game st o c g).2.registred_games = insert g st.registred_games := by
  by_cases hmem : g ∈ st.registred_games
  · simp [register_game, register_allowed, hmem]
  · rcases hsp : (switch_profile st o st.gaming_profile).1 with e | ⟨s, m⟩
    · simp [register_game, register_allowed, hmem, hsp, switch_profile_registred_games]
    · cases s <;>
        simp [register_game, register_allowed, hmem, hsp, switch_profile_registred_games]

/-- Whenever one operation takes the registration set from non-empty to
empty, the profile switch it just issued targeted the initial profile. -/
theorem step_op_empty_transition (st : EngineState) (op : EngineOp)
    (hne : st.registred_games ≠ ∅)
    (he : (step_op st op).2.registred_games = ∅) :
    (step_op st op).2.switch_log.head? = some st.initial_profile := by
  cases op with
  | reg c g o =>
    exfalso
    simp only [step_op] at he
    rcases register_game_set_shape st o c g with h | h
    · exact hne (h ▸ he)
    · rw [h] at he
      exact Finset.insert_ne_empty g _ he
  | unreg c g o =>
    simp only [step_op] at he ⊢
    by_cases hmem : g ∈ st.registred_games
    · by_cases hd : st.registred_games \ {g} = ∅
      · rcases hsp : (switch_profile st o st.initial_profile).1 with e | ⟨s, m⟩
        · exfalso
          have hx : (unregister_game st o c g).2.registred_games = st.registred_games := by
            simp [unregister_game, unregister_allowed, hmem, hd, hsp,
              switch_profile_registred_games]
          exact hne (hx ▸ he)
        · cases s
          · exfalso
            have hx : (unregister_game st o c g).2.registred_games =
                st.registred_games := by
              simp [unregister_game, unregister_allowed, hmem, hd, hsp,
                switch_profile_registred_games]
            exact hne (hx ▸ he)
          · simp [unregister_game, unregister_allowed, hmem, hd, hsp,
              switch_profile_switch_log]
      · exfalso
        have hx : (unregister_game st o c g).2.registred_games =
            st.registred_games.erase g := by
          simp [unregister_game, unregister_allowed, hmem, hd]
        rw [hx, Finset.erase_eq] at he
        exact hd he
    · exfalso
      have hx : (unregister_game st o c g).2.registred_games = st.registred_games := by
        simp [unregister_game, unregister_allowed, hmem]
      exact hne (hx ▸ he)

/-- Running an appended sequence runs the two parts in order. -/
theorem run_ops_append (st : EngineState) (l1 l2 : List EngineOp) :
    run_ops st (l1 ++ l2) = run_ops (run_ops st l1) l2 := by
  induction l1 generalizing st with
  | nil => rfl
  | cons a t ih => simp [run_ops, ih]

/-- C3: along any finite run of register/unregister operations in which
every profile switch succeeds, at each point where the registration set
goes from non-empty to empty the most recent profile switch the engine
issued targeted the initial profile. -/
theorem empty_transition_last_switch_initial (st : EngineState) (ops : List EngineOp)
    (hsucc : ∀ op ∈ ops, OracleSucceeds op.oracle) (i : Nat)
    (hne : (run_ops st (ops.take i)).registred_games ≠ ∅)
    (he : (run_ops st (ops.take (i + 1))).registred_games = ∅) :
    (run_ops st (ops.take (i + 1))).switch_log.head? = some st.initial_profile := by
  by_cases hi : i < ops.length
  · have htake : ops.take (i + 1) = ops.take i ++ [ops[i]] := by
      rw [List.take_succ]
      congr 1
      simp [List.getElem?_eq_getElem hi]
    rw [htake, run_ops_append] at he ⊢
    have hstep : run_ops (run_ops st (ops.take i)) [ops[i]] =
        (step_op (run_ops st (ops.take i)) ops[i]).2 := rfl
    rw [hstep] at he ⊢
    rw [step_op_empty_transition _ _ hne he, run_ops_initial_profile]
  · have hlen : ops.length ≤ i := Nat.le_of_not_lt hi
    rw [List.take_of_length_le hlen] at hne
    rw [List.take_of_length_le (by omega)] at he
    exact absurd he hne

/-- Witness for C3: a register followed by an unregister, both switches
succeeding; at the step emptying the set the last issued switch is the
initial profile. -/
theorem empty_transition_last_switch_initial_witness :
    (run_ops emptySt
        ([EngineOp.reg 1 1 okOracle, EngineOp.unreg 1 1 okOracle].take (1 + 1))).switch_log.head? =
      some emptySt.initial_profile :=
  empty_transition_last_switch_initial emptySt
    [EngineOp.reg 1 1 okOracle, EngineOp.unreg 1 1 okOracle]
    (by
      intro op hop
      cases hop with
      | head => exact okOracle_succeeds
      | tail _ h2 =>
        cases h2 with
        | head => exact okOracle_succeeds
        | tail _ h3 => cases h3)
    1 (by decide) (by decide)

/-- On a text all of whose lines unpack into a field and a value, the
decoder raises its own ValueError exactly when no line has tag `Pid:`. -/
theorem pidfd_not_found_iff (lines : List String)
    (hwf : ∀ l ∈ lines, (pySplitMax1 l.data).length = 2) :
    pidfd_to_pid lines = Except.error DecodeErr.noPidField ↔
      ∀ l ∈ lines, hasPidTag l = false := by
  induction lines with
  | nil => simp [pidfd_to_pid]
  | cons a rest ih =>
    have ha := hwf a (List.mem_cons_self a rest)
    have ih' := ih (fun l hl => hwf l (List.mem_cons_of_mem a hl))
    rcases hsp : pySplitMax1 a.data with _ | ⟨f, _ | ⟨v, _ | ⟨x, tl⟩⟩⟩
    · rw [hsp] at ha; simp at ha
    · rw [hsp] at ha; simp at ha
    · by_cases hf : f = "Pid:".data
      · subst hf
        constructor
        · intro h
          exfalso
          rcases hv : pyInt v with _ | n
          · simp [pidfd_to_pid, hsp, hv] at h
          · simp [pidfd_to_pid, hsp, hv] at h
        · intro h
          have hx := h a (List.mem_cons_self a rest)
          simp [hasPidTag, hsp] at hx
      · constructor
        · intro h
          intro l hl
          rcases List.mem_cons.mp hl with rfl | hl2
          · simp [hasPidTag, hsp, hf]
          · refine (ih'.mp ?_) l hl2
            simpa [pidfd_to_pid, hsp, hf] using h
        · intro h
          have hrest := fun l hl => h l (List.mem_cons_of_mem a hl)
          simp [pidfd_to_pid, hsp, hf]
          exact ih'.mpr hrest
    · rw [hsp] at ha; simp at ha

/-- On a well-formed text, the first line tagged `Pid:` whose value
parses as an integer determines the decoder's result. -/
theorem pidfd_found_first (pre : List String) (l : String) (post : List String)
    (v : List Char) (n : Int)
    (hwf : ∀ l2 ∈ pre, (pySplitMax1 l2.data).length = 2)
    (hpre : ∀ l2 ∈ pre, hasPidTag l2 = false)
    (hl : pySplitMax1 l.data = ["Pid:".data, v])
    (hv : pyInt v = some n) :
    pidfd_to_pid (pre ++ l :: post) = Except.ok n := by
  induction pre with
  | nil => simp [pidfd_to_pid, hl, hv]
  | cons a rest ih =>
    have ha := hwf a (List.mem_cons_self a rest)
    have haf := hpre a (List.mem_cons_self a rest)
    rcases hsp : pySplitMax1 a.data with _ | ⟨f, _ | ⟨v2, _ | ⟨x, tl⟩⟩⟩
    · rw [hsp] at ha; simp at ha
    · rw [hsp] at ha; simp at ha
    · have hf : ¬(f = "Pid:".data) := by
        simpa [hasPidTag, hsp] using haf
      simp only [List.cons_append]
      simp [pidfd_to_pid, hsp, hf]
      exact ih (fun l2 h2 => hwf l2 (List.mem_cons_of_mem a h2))
        (fun l2 h2 => hpre l2 (List.mem_cons_of_mem a h2))
    · rw [hsp] at ha; simp at ha

/-- C7 counterexample: the fdinfo text with lines "x" and "Pid:	5"
contains a line whose field tag is exactly `Pid:` with integer value 5,
yet the decoder raises the tuple-unpacking ValueError on the malformed
first line instead of returning 5 (and instead of the absent-field
DECODE-ERROR). -/
theorem pidfd_malformed_line_cex :
    pySplitMax1 ("Pid:\t5".data) = ["Pid:".data, "5".data] ∧
    pyInt ("5".data) = some 5 ∧
    pidfd_to_pid ["x", "Pid:\t5"] = Except.error DecodeErr.unpackError ∧
    pidfd_to_pid ["x", "Pid:\t5"] ≠ Except.ok 5 := by decide

/-- C7 amended: for every fdinfo text all of whose lines unpack into a
field tag and a value, the decoder fails with its DECODE-ERROR exactly
when no line's tag is `Pid:`, and whenever some line's tag is exactly
`Pid:` — the first such line having integer value n — the decoder
returns n. -/
theorem pidfd_decode_wellformed (lines : List String)
    (hwf : ∀ l ∈ lines, (pySplitMax1 l.data).length = 2) :
    (pidfd_to_pid lines = Except.error DecodeErr.noPidField ↔
        ∀ l ∈ lines, hasPidTag l = false) ∧
    (∀ pre l post v n, lines = pre ++ l :: post →
        (∀ l2 ∈ pre, hasPidTag l2 = false) →
        pySplitMax1 l.data = ["Pid:".data, v] →
        pyInt v = some n →
        pidfd_to_pid lines = Except.ok n) := by
  refine ⟨pidfd_not_found_iff lines hwf, ?_⟩
  intro pre l post v n hsplit hpre hl hv
  subst hsplit
  exact pidfd_found_first pre l post v n
    (fun l2 h2 => hwf l2 (List.mem_append_left _ h2)) hpre hl hv

/-- Witness for the amended C7 on a concrete well-formed fdinfo text. -/
theorem pidfd_decode_wellformed_witness :
    pidfd_to_pid ["pos:\t0", "Pid:\t42"] = Except.ok 42 :=
  (pidfd_decode_wellformed ["pos:\t0", "Pid:\t42"] (by decide)).2
    ["pos:\t0"] "Pid:\t42" [] ("42".data) 42 (by decide) (by decide) (by decide) (by decide)

end Tunedmode
